import Mathlib

/-!
Shallow embedding of the account subsystem of `src/server.js` (VintageStudios/Vynlo).

The server is a single-threaded Node HTTP dispatcher over a JSON record store.
Each route handler is embedded as a pure Lean function from the parsed request
body, the current account store (`accounts.json` as a `List Account`), the
current clock reading, and the random material the handler draws
(`crypto.randomBytes` salts and tokens are passed in explicitly), to the HTTP
response together with the store as it stands after the handler's write.

Crypto primitives (`crypto.scryptSync`, md5, sha256 from Node's `crypto`
module) are external collaborators, not repository code. They are modelled as
injective constructors of a `Digest` type: distinct inputs give distinct
digests and the three schemes never collide, which renders the standard
collision-freeness assumption on the real primitives.

JS truthiness is modelled faithfully: a missing field or the empty string is
falsy (`!email`), the number 0 is falsy (`!acct.resetTokenExpiry`).

Response bodies distinguish `res.end(JSON.stringify(x))` (a JSON value) from
`res.end(s)` on a bare string (plain text), because the source uses both.
-/

namespace Vynlo

/-- Model of the digests produced by the crypto collaborators: `scryptSync`
(keyed by password and salt), legacy unsalted md5, and sha256 (reset tokens).
Constructor injectivity and disjointness render collision-freeness of the
real primitives. -/
inductive Digest where
  | scrypt (password salt : String)
  | md5 (input : String)
  | sha256 (input : String)
deriving DecidableEq

/-- `hashPassword(password, salt)` = `crypto.scryptSync(password, salt, 64).toString('hex')`
(src/server.js lines 27-29). -/
def hashPassword (password salt : String) : Digest :=
  Digest.scrypt password salt

/-- `crypto.createHash('md5').update(password).digest('hex')` (line 101). -/
def md5Hex (input : String) : Digest :=
  Digest.md5 input

/-- `crypto.createHash('sha256').update(token).digest('hex')` (lines 231, 250). -/
def sha256Hex (input : String) : Digest :=
  Digest.sha256 input

/-- Hex rendering of a digest, used only where a digest is embedded in a JSON
value (the store-internal fields; these are exactly the fields stripped from
every public view). -/
def digestHex : Digest → String
  | Digest.scrypt password salt => "scrypt." ++ salt ++ "." ++ password
  | Digest.md5 input => "md5." ++ input
  | Digest.sha256 input => "sha256." ++ input

/-- Atomic JSON values occurring in this server's responses. -/
inductive JVal where
  | str (s : String)
  | num (n : Nat)
  | jnull
deriving DecidableEq

/-- A response body: either plain text (`res.end('...')`) or
`res.end(JSON.stringify(x))` where `x` is an object or an array of objects
(the only JSON shapes this server sends on the modelled routes). -/
inductive Body where
  | text (s : String)
  | jsonObj (fields : List (String × JVal))
  | jsonArr (objs : List (List (String × JVal)))
deriving DecidableEq

/-- An HTTP response: status code and body. -/
structure Response where
  status : Nat
  body : Body
deriving DecidableEq

/-- An account record as stored in `accounts.json`. Signup (line 79) creates
every field except `description`, which the update route may add later.
`name` and `description` may be absent from the JS object (`Option`);
`resetTokenHash` / `resetTokenExpiry` are present but possibly `null`.
`passwordSalt` is a string on every account (signup always writes one, and the
spec's data model lists it as credential material on every account). -/
structure Account where
  id : String
  name : Option String
  email : String
  role : String
  createdAt : String
  passwordHash : Digest
  passwordSalt : String
  resetTokenHash : Option Digest
  resetTokenExpiry : Option Nat
  description : Option String := none
deriving DecidableEq

/-- Model of `new Date(now).toISOString()`: a deterministic rendering of the
clock reading. -/
def toISOString (now : Nat) : String :=
  "iso." ++ Nat.repr now

/-- JS truthiness of an optional string field: `undefined`, `null` and `""`
are falsy. -/
def truthyStr : Option String → Bool
  | none => false
  | some s => !(s == "")

/-- JS truthiness of an optional numeric field: `undefined`, `null` and `0`
are falsy. -/
def truthyNum : Option Nat → Bool
  | none => false
  | some n => !(n == 0)

/-- A key-value pair present only when the field is set — JSON.stringify
omits keys whose value is `undefined`. -/
def optField (key : String) : Option JVal → List (String × JVal)
  | none => []
  | some v => [(key, v)]

/-- Render an optional value as JSON `null` when absent (the reset fields are
written as explicit `null`s by signup, line 79). -/
def orNull (f : α → JVal) : Option α → JVal
  | none => JVal.jnull
  | some v => f v

/-- The JSON object an account serializes to, in the field order of the
object literal at line 79 (with `description`, when present, appended by the
update route). -/
def accountFields (a : Account) : List (String × JVal) :=
  [("id", JVal.str a.id)]
    ++ optField "name" (a.name.map JVal.str)
    ++ [("email", JVal.str a.email),
        ("role", JVal.str a.role),
        ("createdAt", JVal.str a.createdAt),
        ("passwordHash", JVal.str (digestHex a.passwordHash)),
        ("passwordSalt", JVal.str a.passwordSalt),
        ("resetTokenHash", orNull (fun d => JVal.str (digestHex d)) a.resetTokenHash),
        ("resetTokenExpiry", orNull JVal.num a.resetTokenExpiry)]
    ++ optField "description" (a.description.map JVal.str)

/-- The four credential/reset keys removed from every public view. -/
def forbiddenKeys : List String :=
  ["passwordHash", "passwordSalt", "resetTokenHash", "resetTokenExpiry"]

/-- The rest-destructuring `{passwordHash,passwordSalt,resetTokenHash,resetTokenExpiry,...rest}`
(lines 33, 114, 129): every field except the four credential/reset keys. -/
def stripCredentialFields (fields : List (String × JVal)) : List (String × JVal) :=
  fields.filter (fun kv => !(forbiddenKeys.contains kv.1))

/-- The public view of one account (the `safe` object of lines 114 and 129). -/
def publicFields (a : Account) : List (String × JVal) :=
  stripCredentialFields (accountFields a)

/-- `sanitizeAccountsForPublic` (lines 31-36): map the credential strip over
the account array. -/
def sanitizeAccountsForPublic (accounts : List Account) : List (List (String × JVal)) :=
  accounts.map (fun a => stripCredentialFields (accountFields a))

/-- All object keys occurring in a response body. -/
def bodyKeys : Body → List String
  | Body.text _ => []
  | Body.jsonObj fields => fields.map (fun kv => kv.1)
  | Body.jsonArr objs => objs.flatMap (fun o => o.map (fun kv => kv.1))

/-- Look up a key in a serialized JSON object (first occurrence, as JS does). -/
def objGet (key : String) (fields : List (String × JVal)) : Option JVal :=
  (fields.find? (fun kv => kv.1 == key)).map (fun kv => kv.2)

/-- The `id` field of a JSON-object response body, if any. -/
def bodyId : Body → Option JVal
  | Body.jsonObj fields => objGet "id" fields
  | _ => none

/-- Replace the first element satisfying `p` by its image under `f` —
the JS idiom `const acct = accounts.find(...)` followed by in-place mutation
of `acct` and a rewrite of the whole array. -/
def updateFirst (p : α → Bool) (f : α → α) : List α → List α
  | [] => []
  | x :: xs => if p x then f x :: xs else x :: updateFirst p f xs

/-- Parsed body of `POST /api/accounts` (line 72). -/
structure SignupBody where
  name : Option String := none
  email : Option String := none
  password : Option String := none
  role : Option String := none
deriving DecidableEq

/-- Parsed body of `POST /api/accounts/login` (line 89). -/
structure LoginBody where
  email : Option String := none
  password : Option String := none
deriving DecidableEq

/-- Parsed body of `POST /api/accounts/update` (line 138). -/
structure UpdateBody where
  id : Option String := none
  name : Option String := none
  description : Option String := none
deriving DecidableEq

/-- Parsed body of `POST /api/accounts/request-reset` (line 225). -/
structure ResetRequestBody where
  email : Option String := none
deriving DecidableEq

/-- Parsed body of `POST /api/accounts/reset` (line 244). -/
structure ResetBody where
  email : Option String := none
  token : Option String := none
  newPassword : Option String := none
deriving DecidableEq

/-- Build a signup request body. -/
def mkSignupBody (name email password role : Option String) : SignupBody :=
  { name := name, email := email, password := password, role := role }

/-- Build a login request body. -/
def mkLoginBody (email password : Option String) : LoginBody :=
  { email := email, password := password }

/-- Build a request-reset request body. -/
def mkResetRequestBody (email : Option String) : ResetRequestBody :=
  { email := email }

/-- Build a complete-reset request body. -/
def mkResetBody (email token newPassword : Option String) : ResetBody :=
  { email := email, token := token, newPassword := newPassword }

/-- `GET /api/accounts` (lines 62-67): the sanitized account array. -/
def listAccounts (store : List Account) : Response :=
  ⟨200, Body.jsonArr (sanitizeAccountsForPublic store)⟩

/-- The accounts payload of an SSE `accounts` event (lines 275-279): the
sanitized account array re-read from the store. -/
def sseAccountsPayload (store : List Account) : Body :=
  Body.jsonArr (sanitizeAccountsForPublic store)

/-- The account record the signup handler constructs (line 79): fresh id from
`Date.now()`, creation timestamp, fresh salt and scrypt hash, both reset
fields `null`. -/
def newAccount (b : SignupBody) (now : Nat) (salt : String) : Account :=
  { id := "acct_" ++ Nat.repr now, name := b.name, email := b.email.getD "",
    role := b.role.getD "user", createdAt := toISOString now,
    passwordHash := hashPassword (b.password.getD "") salt,
    passwordSalt := salt, resetTokenHash := none, resetTokenExpiry := none,
    description := none }

/-- The 201 response body of signup (line 83): the projection
`{id,email,name,createdAt,role}` of the new account. -/
def signupResponseFields (b : SignupBody) (now : Nat) : List (String × JVal) :=
  [("id", JVal.str ("acct_" ++ Nat.repr now)), ("email", JVal.str (b.email.getD ""))]
    ++ optField "name" (b.name.map JVal.str)
    ++ [("createdAt", JVal.str (toISOString now)),
        ("role", JVal.str (b.role.getD "user"))]

/-- `POST /api/accounts` (lines 68-86). `body = none` is an unparsable
request body (the promise rejection caught at line 84 — note the catch ends
the BARE string, not JSON). `now` is `Date.now()`, `salt` the fresh
`randomBytes` hex. Returns the response and the store after the write. -/
def signup (body : Option SignupBody) (store : List Account) (now : Nat)
    (salt : String) : Response × List Account :=
  match body with
  | none => (⟨400, Body.text "invalid body"⟩, store)
  | some b =>
    if !truthyStr b.email || !truthyStr b.password then
      (⟨400, Body.jsonObj [("error", JVal.str "email and password required")]⟩, store)
    else
      let email := b.email.getD ""
      if (store.find? (fun a => a.email == email)).isSome then
        (⟨409, Body.jsonObj [("error", JVal.str "email exists")]⟩, store)
      else
        (⟨201, Body.jsonObj (signupResponseFields b now)⟩,
         store ++ [newAccount b now salt])

/-- The in-place credential upgrade of the legacy login branch
(lines 105-107). -/
def upgradeCredential (password newSalt : String) (a : Account) : Account :=
  { a with passwordSalt := newSalt, passwordHash := hashPassword password newSalt }

/-- `POST /api/accounts/login` (lines 87-118). `newSalt` is the fresh salt
drawn if the legacy upgrade fires. -/
def login (body : Option LoginBody) (store : List Account)
    (newSalt : String) : Response × List Account :=
  match body with
  | none => (⟨400, Body.jsonObj [("error", JVal.str "invalid body")]⟩, store)
  | some b =>
    if !truthyStr b.email || !truthyStr b.password then
      (⟨400, Body.jsonObj [("error", JVal.str "email and password required")]⟩, store)
    else
      let email := b.email.getD ""
      let password := b.password.getD ""
      match store.find? (fun a => a.email == email) with
      | none => (⟨401, Body.jsonObj [("error", JVal.str "invalid credentials")]⟩, store)
      | some acct =>
        let scryptHash := hashPassword password acct.passwordSalt
        if scryptHash = acct.passwordHash then
          (⟨200, Body.jsonObj (publicFields acct)⟩, store)
        else if md5Hex password = acct.passwordHash then
          let acct2 := upgradeCredential password newSalt acct
          let store2 := updateFirst (fun a => a.email == email)
            (upgradeCredential password newSalt) store
          (⟨200, Body.jsonObj (publicFields acct2)⟩, store2)
        else
          (⟨401, Body.jsonObj [("error", JVal.str "invalid credentials")]⟩, store)

/-- `GET /api/account?id=` (lines 120-133). Read-only. -/
def getById (id : Option String) (store : List Account) : Response :=
  if !truthyStr id then
    ⟨400, Body.jsonObj [("error", JVal.str "id required")]⟩
  else
    match store.find? (fun a => a.id == id.getD "") with
    | none => ⟨404, Body.jsonObj [("error", JVal.str "not found")]⟩
    | some acct => ⟨200, Body.jsonObj (publicFields acct)⟩

/-- The in-place field mutation of the update route (lines 143-144):
`typeof name === 'string'` — a present string field, even `""`, is copied. -/
def applyUpdateFields (b : UpdateBody) (a : Account) : Account :=
  { a with
    name := match b.name with | some s => some s | none => a.name,
    description := match b.description with | some s => some s | none => a.description }

/-- `POST /api/accounts/update` (lines 134-149). -/
def update (body : Option UpdateBody) (store : List Account) :
    Response × List Account :=
  match body with
  | none => (⟨400, Body.jsonObj [("error", JVal.str "invalid body")]⟩, store)
  | some b =>
    if !truthyStr b.id then
      (⟨400, Body.jsonObj [("error", JVal.str "id required")]⟩, store)
    else
      match store.find? (fun a => a.id == b.id.getD "") with
      | none => (⟨404, Body.jsonObj [("error", JVal.str "not found")]⟩, store)
      | some acct =>
        let acct2 := applyUpdateFields b acct
        let store2 := updateFirst (fun a => a.id == b.id.getD "")
          (applyUpdateFields b) store
        (⟨200, Body.jsonObj
            ([("message", JVal.str "updated"), ("id", JVal.str acct2.id)]
              ++ optField "name" (acct2.name.map JVal.str)
              ++ optField "description" (acct2.description.map JVal.str))⟩,
         store2)

/-- The in-place token installation of the request-reset route
(lines 232-233). -/
def installResetToken (tokenHash : Digest) (expiry : Nat) (a : Account) : Account :=
  { a with resetTokenHash := some tokenHash, resetTokenExpiry := some expiry }

/-- `POST /api/accounts/request-reset` (lines 221-240). `token` is the fresh
`randomBytes(24)` hex; its sha256 is stored with a one-hour expiry. -/
def requestReset (body : Option ResetRequestBody) (store : List Account)
    (now : Nat) (token : String) : Response × List Account :=
  match body with
  | none => (⟨400, Body.jsonObj [("error", JVal.str "invalid body")]⟩, store)
  | some b =>
    if !truthyStr b.email then
      (⟨400, Body.jsonObj [("error", JVal.str "email required")]⟩, store)
    else
      let email := b.email.getD ""
      match store.find? (fun a => a.email == email) with
      | none => (⟨404, Body.jsonObj [("error", JVal.str "not found")]⟩, store)
      | some _ =>
        let tokenHash := sha256Hex token
        let store2 := updateFirst (fun a => a.email == email)
          (installResetToken tokenHash (now + 1000 * 60 * 60)) store
        (⟨200, Body.jsonObj
            [("message", JVal.str "reset token generated (demo)"),
             ("token", JVal.str token)]⟩,
         store2)

/-- The in-place mutation of a successful reset (lines 253-257): new salt and
hash, both reset fields cleared, one write. -/
def applyPasswordReset (newPassword salt : String) (a : Account) : Account :=
  { a with passwordSalt := salt, passwordHash := hashPassword newPassword salt,
           resetTokenHash := none, resetTokenExpiry := none }

/-- `POST /api/accounts/reset` (lines 241-263). `now` is `Date.now()` at the
expiry check, `salt` the fresh salt for the new credential. -/
def completeReset (body : Option ResetBody) (store : List Account) (now : Nat)
    (salt : String) : Response × List Account :=
  match body with
  | none => (⟨400, Body.jsonObj [("error", JVal.str "invalid body")]⟩, store)
  | some b =>
    if !truthyStr b.email || !truthyStr b.token || !truthyStr b.newPassword then
      (⟨400, Body.jsonObj [("error", JVal.str "email,token,newPassword required")]⟩, store)
    else
      let email := b.email.getD ""
      let token := b.token.getD ""
      let newPassword := b.newPassword.getD ""
      match store.find? (fun a => a.email == email) with
      | none => (⟨400, Body.jsonObj [("error", JVal.str "no reset requested")]⟩, store)
      | some acct =>
        if !(acct.resetTokenHash.isSome) || !truthyNum acct.resetTokenExpiry then
          (⟨400, Body.jsonObj [("error", JVal.str "no reset requested")]⟩, store)
        else if acct.resetTokenExpiry.getD 0 < now then
          (⟨400, Body.jsonObj [("error", JVal.str "token expired")]⟩, store)
        else if acct.resetTokenHash ≠ some (sha256Hex token) then
          (⟨400, Body.jsonObj [("error", JVal.str "invalid token")]⟩, store)
        else
          let store2 := updateFirst (fun a => a.email == email)
            (applyPasswordReset newPassword salt) store
          (⟨200, Body.jsonObj [("message", JVal.str "password updated")]⟩, store2)

/-- One store-mutating operation of the authentication service, with the
clock reading and random material it draws. -/
inductive Op where
  | signup (body : Option SignupBody) (now : Nat) (salt : String)
  | login (body : Option LoginBody) (newSalt : String)
  | update (body : Option UpdateBody)
  | requestReset (body : Option ResetRequestBody) (now : Nat) (token : String)
  | completeReset (body : Option ResetBody) (now : Nat) (salt : String)

/-- The store after one operation. -/
def applyOp (store : List Account) : Op → List Account
  | Op.signup body now salt => (signup body store now salt).2
  | Op.login body newSalt => (login body store newSalt).2
  | Op.update body => (update body store).2
  | Op.requestReset body now token => (requestReset body store now token).2
  | Op.completeReset body now salt => (completeReset body store now salt).2

/-- The store after a sequence of operations. -/
def applyOps (store : List Account) : List Op → List Account
  | [] => store
  | op :: ops => applyOps (applyOp store op) ops

/-- The reset-pairing invariant on one account: `resetTokenHash` and
`resetTokenExpiry` are both null or both set. -/
def pairInv (a : Account) : Prop :=
  (a.resetTokenHash = none ∧ a.resetTokenExpiry = none) ∨
  (a.resetTokenHash ≠ none ∧ a.resetTokenExpiry ≠ none)

/-- The reset-pairing invariant over the whole store. -/
def StoreInv (store : List Account) : Prop :=
  ∀ a ∈ store, pairInv a

instance (a : Account) : Decidable (pairInv a) := by
  unfold pairInv; infer_instance

instance (store : List Account) : Decidable (StoreInv store) := by
  unfold StoreInv; infer_instance

/-! ### List helper lemmas -/

theorem find?_append_of_none {p : α → Bool} {l₁ : List α} (l₂ : List α)
    (h : l₁.find? p = none) : (l₁ ++ l₂).find? p = l₂.find? p := by
  induction l₁ with
  | nil => rfl
  | cons x xs ih =>
    cases hx : p x with
    | true => simp [List.find?_cons, hx] at h
    | false =>
      simp only [List.find?_cons, hx] at h
      simpa [List.find?_cons, hx] using ih h

theorem find?_updateFirst {p : α → Bool} {f : α → α}
    (hf : ∀ a, p (f a) = p a) (l : List α) :
    (updateFirst p f l).find? p = (l.find? p).map f := by
  induction l with
  | nil => rfl
  | cons x xs ih =>
    cases hx : p x with
    | true => simp [updateFirst, hx, List.find?_cons, hf]
    | false => simpa [updateFirst, hx, List.find?_cons, hf] using ih

theorem mem_updateFirst {p : α → Bool} {f : α → α} {b : α} {l : List α}
    (h : b ∈ updateFirst p f l) : b ∈ l ∨ ∃ a, a ∈ l ∧ b = f a := by
  induction l with
  | nil => simp [updateFirst] at h
  | cons x xs ih =>
    by_cases hx : p x = true
    · simp only [updateFirst, if_pos hx, List.mem_cons] at h
      rcases h with h | h
      · exact Or.inr ⟨x, List.mem_cons_self x xs, h⟩
      · exact Or.inl (List.mem_cons_of_mem x h)
    · simp only [updateFirst, if_neg hx, List.mem_cons] at h
      rcases h with h | h
      · exact Or.inl (by simp [h])
      · rcases ih h with h | ⟨a, ha, rfl⟩
        · exact Or.inl (List.mem_cons_of_mem x h)
        · exact Or.inr ⟨a, List.mem_cons_of_mem x ha, rfl⟩

/-! ### Public-view key lemmas -/

theorem forbidden_contains_of_mem {k : String} (hk : k ∈ forbiddenKeys) :
    forbiddenKeys.contains k = true := by
  simp only [forbiddenKeys, List.mem_cons, List.not_mem_nil, or_false] at hk
  rcases hk with rfl | rfl | rfl | rfl <;> decide

theorem forbidden_not_mem_strip {k : String} (hk : k ∈ forbiddenKeys)
    (fields : List (String × JVal)) :
    k ∉ (stripCredentialFields fields).map (fun kv => kv.1) := by
  intro hmem
  rcases List.mem_map.1 hmem with ⟨kv, hkv, rfl⟩
  have hp := List.of_mem_filter hkv
  rw [forbidden_contains_of_mem hk] at hp
  simp at hp

theorem find?_id_publicFields (a : Account) :
    (publicFields a).find? (fun kv => kv.1 == "id") = some ("id", JVal.str a.id) := by
  simp [publicFields, accountFields, stripCredentialFields, forbiddenKeys,
    List.filter_cons, List.find?_cons]

theorem objGet_id_publicFields (a : Account) :
    objGet "id" (publicFields a) = some (JVal.str a.id) := by
  simp [objGet, find?_id_publicFields]

theorem forbidden_ne_plain {k : String} (hk : k ∈ forbiddenKeys) :
    k ≠ "error" ∧ k ≠ "message" ∧ k ≠ "id" ∧ k ≠ "email" ∧ k ≠ "name" ∧
    k ≠ "createdAt" ∧ k ≠ "role" ∧ k ≠ "token" ∧ k ≠ "description" := by
  simp only [forbiddenKeys, List.mem_cons, List.not_mem_nil, or_false] at hk
  rcases hk with rfl | rfl | rfl | rfl <;> refine ⟨?_, ?_, ?_, ?_, ?_, ?_, ?_, ?_, ?_⟩ <;> decide

theorem forbidden_not_mem_sanitized {k : String} (hk : k ∈ forbiddenKeys)
    (store : List Account) :
    k ∉ bodyKeys (Body.jsonArr (sanitizeAccountsForPublic store)) := by
  intro hmem
  simp only [bodyKeys, List.mem_flatMap] at hmem
  rcases hmem with ⟨o, ho, hkm⟩
  rcases List.mem_map.1 ho with ⟨a, _, rfl⟩
  exact forbidden_not_mem_strip hk (accountFields a) hkm

/-- A concrete stored account, used by witnesses. -/
def demoAccount : Account :=
  { id := "acct_1", name := some "Ada", email := "a@x.com", role := "user",
    createdAt := "iso.1", passwordHash := Digest.scrypt "pw" "s1",
    passwordSalt := "s1", resetTokenHash := none, resetTokenExpiry := none,
    description := none }

/-! ### Claims -/

/-- C1: every account representation returned to a client or broadcast to
subscribers — the responses of list accounts, signup, login, getById, and the
accounts payload of SSE events — contains none of the fields `passwordHash`,
`passwordSalt`, `resetTokenHash`, `resetTokenExpiry`, for every stored
account. -/
theorem C1_public_views_never_leak_credentials
    (store : List Account) (k : String) (hk : k ∈ forbiddenKeys)
    (sbody : Option SignupBody) (lbody : Option LoginBody)
    (now : Nat) (salt newSalt : String) (qid : Option String) :
    k ∉ bodyKeys (listAccounts store).body
    ∧ k ∉ bodyKeys (signup sbody store now salt).1.body
    ∧ k ∉ bodyKeys (login lbody store newSalt).1.body
    ∧ k ∉ bodyKeys (getById qid store).body
    ∧ k ∉ bodyKeys (sseAccountsPayload store) := by
  obtain ⟨hne, hnm, hni, hnem, hnn, hnc, hnr, hnt, hnd⟩ := forbidden_ne_plain hk
  refine ⟨forbidden_not_mem_sanitized hk store, ?_, ?_, ?_,
    forbidden_not_mem_sanitized hk store⟩
  · cases sbody with
    | none => simp [signup, bodyKeys]
    | some b =>
      simp only [signup]
      split
      · simp [bodyKeys, hne]
      · split
        · simp [bodyKeys, hne]
        · cases hn : b.name <;>
            simp [bodyKeys, signupResponseFields, optField, hni, hnem, hnn, hnc, hnr, hn]
  · cases lbody with
    | none => simp [login, bodyKeys, hne]
    | some b =>
      simp only [login]
      split
      · simp [bodyKeys, hne]
      · cases hfind : store.find? (fun a => a.email == b.email.getD "") with
        | none => simp [hfind, bodyKeys, hne]
        | some acct =>
          simp only [hfind]
          split
          · exact fun hmem => forbidden_not_mem_strip hk (accountFields acct) hmem
          · split
            · exact fun hmem =>
                forbidden_not_mem_strip hk
                  (accountFields (upgradeCredential (b.password.getD "") newSalt acct)) hmem
            · simp [bodyKeys, hne]
  · simp only [getById]
    split
    · simp [bodyKeys, hne]
    · cases hfind : store.find? (fun a => a.id == qid.getD "") with
      | none => simp [hfind, bodyKeys, hne]
      | some acct =>
        simp only [hfind]
        exact fun hmem => forbidden_not_mem_strip hk (accountFields acct) hmem

/-- Witness for C1 at a concrete store and concrete requests. -/
theorem C1_public_views_never_leak_credentials_witness :
    "passwordHash" ∉ bodyKeys (listAccounts [demoAccount]).body
    ∧ "passwordHash" ∉ bodyKeys
        (signup (some { email := some "b@x.com", password := some "pw2" })
          [demoAccount] 2 "s2").1.body
    ∧ "passwordHash" ∉ bodyKeys
        (login (some { email := some "a@x.com", password := some "pw" })
          [demoAccount] "s3").1.body
    ∧ "passwordHash" ∉ bodyKeys (getById (some "acct_1") [demoAccount]).body
    ∧ "passwordHash" ∉ bodyKeys (sseAccountsPayload [demoAccount]) :=
  C1_public_views_never_leak_credentials [demoAccount] "passwordHash" (by decide)
    (some { email := some "b@x.com", password := some "pw2" })
    (some { email := some "a@x.com", password := some "pw" })
    2 "s2" "s3" (some "acct_1")

/-- C2: for every email and password for which signup succeeds (status 201),
a subsequent login with the same credentials on the resulting store succeeds
(status 200) and returns a public view whose id equals the id returned by
that signup. -/
theorem C2_signup_then_login_same_id (store : List Account)
    (name role : Option String) (email password : String)
    (now : Nat) (salt newSalt : String)
    (hsuccess : (signup (some (mkSignupBody name (some email) (some password) role))
        store now salt).1.status = 201) :
    (login (some (mkLoginBody (some email) (some password)))
        (signup (some (mkSignupBody name (some email) (some password) role))
          store now salt).2 newSalt).1.status = 200
    ∧ bodyId (login (some (mkLoginBody (some email) (some password)))
        (signup (some (mkSignupBody name (some email) (some password) role))
          store now salt).2 newSalt).1.body
      = bodyId (signup (some (mkSignupBody name (some email) (some password) role))
          store now salt).1.body := by
  have he : ¬ email = "" := by
    intro he; rw [he] at hsuccess
    simp [signup, truthyStr, mkSignupBody] at hsuccess
  have hp : ¬ password = "" := by
    intro hp; rw [hp] at hsuccess
    simp [signup, truthyStr, mkSignupBody] at hsuccess
  have hbe : (email == "") = false := by simp [he]
  have hbp : (password == "") = false := by simp [hp]
  cases hfind : store.find? (fun a => a.email == email) with
  | some acct =>
    exfalso
    simp [signup, truthyStr, mkSignupBody, hbe, hbp, hfind] at hsuccess
  | none =>
    have hstep : (signup (some (mkSignupBody name (some email) (some password) role))
        store now salt) =
        (⟨201, Body.jsonObj (signupResponseFields
            (mkSignupBody name (some email) (some password) role) now)⟩,
          store ++ [newAccount (mkSignupBody name (some email) (some password) role)
            now salt]) := by
      simp [signup, truthyStr, mkSignupBody, hbe, hbp, hfind]
    rw [hstep]
    simp only [login, truthyStr, mkLoginBody, hbe, hbp, hfind, bodyId,
      signupResponseFields, mkSignupBody, newAccount, hashPassword,
      objGet, List.find?_cons, List.find?_append, Bool.not_false,
      Bool.or_self, Bool.false_or, Option.getD_some, Option.none_or,
      Bool.if_false_left, Bool.and_self]
    simp [List.find?_cons, find?_id_publicFields, objGet, hashPassword]

/-- Witness for C2: a concrete signup on the empty store followed by a login
with the same credentials. -/
theorem C2_signup_then_login_same_id_witness :
    (login (some (mkLoginBody (some "a@x.com") (some "pw")))
        (signup (some (mkSignupBody (some "Ada") (some "a@x.com") (some "pw") none))
          [] 1 "s1").2 "s2").1.status = 200
    ∧ bodyId (login (some (mkLoginBody (some "a@x.com") (some "pw")))
        (signup (some (mkSignupBody (some "Ada") (some "a@x.com") (some "pw") none))
          [] 1 "s1").2 "s2").1.body
      = bodyId (signup (some (mkSignupBody (some "Ada") (some "a@x.com") (some "pw") none))
          [] 1 "s1").1.body :=
  C2_signup_then_login_same_id [] (some "Ada") none "a@x.com" "pw" 1 "s1" "s2"
    (by decide)

/-- A concrete account stored with a legacy unsalted md5 credential, used by
witnesses. -/
def demoLegacyAccount : Account :=
  { id := "acct_9", name := none, email := "l@x.com", role := "user",
    createdAt := "iso.9", passwordHash := Digest.md5 "pw",
    passwordSalt := "s0", resetTokenHash := none, resetTokenExpiry := none,
    description := none }

/-- C3: for every account whose stored `passwordHash` is the legacy unsalted
md5 digest of password `p`, login with `p` succeeds (200) and the store the
handler persists carries an upgraded salted scrypt credential for that
account; a second login with `p` on that store succeeds via the strong-hash
comparison and returns the store unchanged — no further upgrade write. -/
theorem C3_legacy_login_upgrade (store : List Account) (email password : String)
    (newSalt salt2 : String) (acct : Account)
    (he : email ≠ "") (hp : password ≠ "")
    (hfind : store.find? (fun a => a.email == email) = some acct)
    (hlegacy : acct.passwordHash = md5Hex password) :
    (login (some (mkLoginBody (some email) (some password))) store newSalt).1.status = 200
    ∧ (login (some (mkLoginBody (some email) (some password))) store newSalt).2.find?
        (fun a => a.email == email) = some (upgradeCredential password newSalt acct)
    ∧ login (some (mkLoginBody (some email) (some password)))
        (login (some (mkLoginBody (some email) (some password))) store newSalt).2 salt2
      = (⟨200, Body.jsonObj (publicFields (upgradeCredential password newSalt acct))⟩,
         (login (some (mkLoginBody (some email) (some password))) store newSalt).2) := by
  have hbe : (email == "") = false := by simp [he]
  have hbp : (password == "") = false := by simp [hp]
  have hstep : login (some (mkLoginBody (some email) (some password))) store newSalt
      = (⟨200, Body.jsonObj (publicFields (upgradeCredential password newSalt acct))⟩,
         updateFirst (fun a => a.email == email)
           (upgradeCredential password newSalt) store) := by
    simp [login, truthyStr, mkLoginBody, hbe, hbp, hfind, hlegacy,
      hashPassword, md5Hex]
  have hpres : ∀ a : Account,
      ((upgradeCredential password newSalt a).email == email) = (a.email == email) :=
    fun a => rfl
  have hfind2 : (updateFirst (fun a => a.email == email)
      (upgradeCredential password newSalt) store).find? (fun a => a.email == email)
      = some (upgradeCredential password newSalt acct) := by
    rw [find?_updateFirst hpres, hfind]; rfl
  refine ⟨by rw [hstep], by rw [hstep]; exact hfind2, ?_⟩
  rw [hstep]
  simp [login, truthyStr, mkLoginBody, hbe, hbp, hfind2,
    upgradeCredential, hashPassword]

/-- Witness for C3 at a concrete legacy account. -/
theorem C3_legacy_login_upgrade_witness :
    (login (some (mkLoginBody (some "l@x.com") (some "pw")))
        [demoLegacyAccount] "s7").1.status = 200
    ∧ (login (some (mkLoginBody (some "l@x.com") (some "pw")))
        [demoLegacyAccount] "s7").2.find? (fun a => a.email == "l@x.com")
      = some (upgradeCredential "pw" "s7" demoLegacyAccount)
    ∧ login (some (mkLoginBody (some "l@x.com") (some "pw")))
        (login (some (mkLoginBody (some "l@x.com") (some "pw")))
          [demoLegacyAccount] "s7").2 "s8"
      = (⟨200, Body.jsonObj (publicFields (upgradeCredential "pw" "s7" demoLegacyAccount))⟩,
         (login (some (mkLoginBody (some "l@x.com") (some "pw")))
           [demoLegacyAccount] "s7").2) :=
  C3_legacy_login_upgrade [demoLegacyAccount] "l@x.com" "pw" "s7" "s8"
    demoLegacyAccount (by decide) (by decide) (by rfl) (by rfl)

/-- C4: for every login request with both fields present, the failure
response is the same (401, `{error: "invalid credentials"}`) whether no
account matches the email or an account matches but both strong and legacy
verification fail — the response never reveals which factor was wrong. -/
theorem C4_uniform_invalid_credentials (store : List Account)
    (email password newSalt : String) (he : email ≠ "") (hp : password ≠ "")
    (hfail : store.find? (fun a => a.email == email) = none
      ∨ ∃ acct, store.find? (fun a => a.email == email) = some acct
          ∧ acct.passwordHash ≠ hashPassword password acct.passwordSalt
          ∧ acct.passwordHash ≠ md5Hex password) :
    (login (some (mkLoginBody (some email) (some password))) store newSalt).1
      = ⟨401, Body.jsonObj [("error", JVal.str "invalid credentials")]⟩ := by
  have hbe : (email == "") = false := by simp [he]
  have hbp : (password == "") = false := by simp [hp]
  rcases hfail with hfind | ⟨acct, hfind, hstrong, hlegacy⟩
  · simp [login, truthyStr, mkLoginBody, hbe, hbp, hfind]
  · have h1 : ¬ hashPassword password acct.passwordSalt = acct.passwordHash :=
      fun h => hstrong h.symm
    have h2 : ¬ md5Hex password = acct.passwordHash :=
      fun h => hlegacy h.symm
    simp [login, truthyStr, mkLoginBody, hbe, hbp, hfind, h1, h2]

/-- Witness for C4: the unknown-email case and the wrong-password case on a
concrete store both get the literal 401 response. -/
theorem C4_uniform_invalid_credentials_witness :
    (login (some (mkLoginBody (some "nobody@x.com") (some "pw")))
        [demoAccount] "s2").1
      = ⟨401, Body.jsonObj [("error", JVal.str "invalid credentials")]⟩
    ∧ (login (some (mkLoginBody (some "a@x.com") (some "wrong")))
        [demoAccount] "s2").1
      = ⟨401, Body.jsonObj [("error", JVal.str "invalid credentials")]⟩ :=
  ⟨C4_uniform_invalid_credentials [demoAccount] "nobody@x.com" "pw" "s2"
      (by decide) (by decide) (Or.inl (by decide)),
   C4_uniform_invalid_credentials [demoAccount] "a@x.com" "wrong" "s2"
      (by decide) (by decide)
      (Or.inr ⟨demoAccount, by decide, by decide, by decide⟩)⟩

/-- A concrete account with a pending reset token, used by witnesses. -/
def demoPendingAccount : Account :=
  { id := "acct_3", name := none, email := "r@x.com", role := "user",
    createdAt := "iso.3", passwordHash := Digest.scrypt "old" "s3",
    passwordSalt := "s3", resetTokenHash := some (Digest.sha256 "tok"),
    resetTokenExpiry := some 100, description := none }

/-- C5: for every account with a pending reset, a completeReset call whose
clock reading is strictly after `resetTokenExpiry` fails with 400
`{error: "token expired"}` and leaves the store — in particular the
account's `passwordHash` and `passwordSalt` — unchanged. (Expiry values are
`now + 3600000` from requestReset, so a pending expiry is never the JS-falsy
number 0; the hypothesis `e ≠ 0` records that.) -/
theorem C5_expired_reset_rejected_unchanged (store : List Account)
    (email token newPassword salt : String) (now e : Nat) (acct : Account)
    (he : email ≠ "") (ht : token ≠ "") (hn : newPassword ≠ "")
    (hfind : store.find? (fun a => a.email == email) = some acct)
    (hhash : acct.resetTokenHash.isSome)
    (hexp : acct.resetTokenExpiry = some e) (hepos : e ≠ 0)
    (hlate : e < now) :
    completeReset (some (mkResetBody (some email) (some token) (some newPassword)))
        store now salt
      = (⟨400, Body.jsonObj [("error", JVal.str "token expired")]⟩, store) := by
  have hbe : (email == "") = false := by simp [he]
  have hbt : (token == "") = false := by simp [ht]
  have hbn : (newPassword == "") = false := by simp [hn]
  simp [completeReset, truthyStr, truthyNum, mkResetBody, hbe, hbt, hbn,
    hfind, hhash, hexp, hepos, hlate]

/-- Witness for C5: a concrete pending account, clock past the expiry. -/
theorem C5_expired_reset_rejected_unchanged_witness :
    completeReset (some (mkResetBody (some "r@x.com") (some "tok") (some "np")))
        [demoPendingAccount] 200 "s4"
      = (⟨400, Body.jsonObj [("error", JVal.str "token expired")]⟩,
         [demoPendingAccount]) :=
  C5_expired_reset_rejected_unchanged [demoPendingAccount] "r@x.com" "tok" "np"
    "s4" 200 100 demoPendingAccount (by decide) (by decide) (by decide)
    (by decide) (by decide) (by decide) (by decide) (by decide)

/-- C6: a successful completeReset installs the new credential and clears
`resetTokenHash` and `resetTokenExpiry` in the one persisted account record,
and a second completeReset for that account — with the same or any token —
fails with 400 `{error: "no reset requested"}` and writes nothing: a reset
token can never be consumed twice. -/
theorem C6_reset_token_single_use (store : List Account)
    (email token newPassword salt : String) (now e : Nat) (acct : Account)
    (token2 newPassword2 salt2 : String) (now2 : Nat)
    (he : email ≠ "") (ht : token ≠ "") (hn : newPassword ≠ "")
    (ht2 : token2 ≠ "") (hn2 : newPassword2 ≠ "")
    (hfind : store.find? (fun a => a.email == email) = some acct)
    (hhash : acct.resetTokenHash = some (sha256Hex token))
    (hexp : acct.resetTokenExpiry = some e) (hepos : e ≠ 0)
    (hok : ¬ e < now) :
    (completeReset (some (mkResetBody (some email) (some token) (some newPassword)))
        store now salt).1
      = ⟨200, Body.jsonObj [("message", JVal.str "password updated")]⟩
    ∧ (completeReset (some (mkResetBody (some email) (some token) (some newPassword)))
        store now salt).2.find? (fun a => a.email == email)
      = some (applyPasswordReset newPassword salt acct)
    ∧ completeReset (some (mkResetBody (some email) (some token2) (some newPassword2)))
        (completeReset (some (mkResetBody (some email) (some token) (some newPassword)))
          store now salt).2 now2 salt2
      = (⟨400, Body.jsonObj [("error", JVal.str "no reset requested")]⟩,
         (completeReset (some (mkResetBody (some email) (some token) (some newPassword)))
           store now salt).2) := by
  have hbe : (email == "") = false := by simp [he]
  have hbt : (token == "") = false := by simp [ht]
  have hbn : (newPassword == "") = false := by simp [hn]
  have hbt2 : (token2 == "") = false := by simp [ht2]
  have hbn2 : (newPassword2 == "") = false := by simp [hn2]
  have hstep : completeReset (some (mkResetBody (some email) (some token)
      (some newPassword))) store now salt
      = (⟨200, Body.jsonObj [("message", JVal.str "password updated")]⟩,
         updateFirst (fun a => a.email == email)
           (applyPasswordReset newPassword salt) store) := by
    simp [completeReset, truthyStr, truthyNum, mkResetBody, hbe, hbt, hbn,
      hfind, hhash, hexp, hepos, hok]
  have hpres : ∀ a : Account,
      ((applyPasswordReset newPassword salt a).email == email) = (a.email == email) :=
    fun a => rfl
  have hfind2 : (updateFirst (fun a => a.email == email)
      (applyPasswordReset newPassword salt) store).find? (fun a => a.email == email)
      = some (applyPasswordReset newPassword salt acct) := by
    rw [find?_updateFirst hpres, hfind]; rfl
  refine ⟨by rw [hstep], by rw [hstep]; exact hfind2, ?_⟩
  rw [hstep]
  simp [completeReset, truthyStr, truthyNum, mkResetBody, hbe, hbt2, hbn2,
    hfind2, applyPasswordReset]

/-- Witness for C6: a concrete pending account, reset completed within the
window, then a replay of the same token. -/
theorem C6_reset_token_single_use_witness :
    (completeReset (some (mkResetBody (some "r@x.com") (some "tok") (some "np")))
        [demoPendingAccount] 50 "s4").1
      = ⟨200, Body.jsonObj [("message", JVal.str "password updated")]⟩
    ∧ (completeReset (some (mkResetBody (some "r@x.com") (some "tok") (some "np")))
        [demoPendingAccount] 50 "s4").2.find? (fun a => a.email == "r@x.com")
      = some (applyPasswordReset "np" "s4" demoPendingAccount)
    ∧ completeReset (some (mkResetBody (some "r@x.com") (some "tok") (some "np")))
        (completeReset (some (mkResetBody (some "r@x.com") (some "tok") (some "np")))
          [demoPendingAccount] 50 "s4").2 60 "s5"
      = (⟨400, Body.jsonObj [("error", JVal.str "no reset requested")]⟩,
         (completeReset (some (mkResetBody (some "r@x.com") (some "tok") (some "np")))
           [demoPendingAccount] 50 "s4").2) :=
  C6_reset_token_single_use [demoPendingAccount] "r@x.com" "tok" "np" "s4" 50 100
    demoPendingAccount "tok" "np" "s5" 60 (by decide) (by decide) (by decide)
    (by decide) (by decide) (by decide) (by decide) (by decide) (by decide)
    (by decide)

/-! ### Invariant-preservation helper lemmas for the handlers -/

theorem StoreInv_updateFirst {p : Account → Bool} {f : Account → Account}
    (hf : ∀ a, pairInv a → pairInv (f a)) {l : List Account}
    (h : StoreInv l) : StoreInv (updateFirst p f l) := by
  intro b hb
  rcases mem_updateFirst hb with hb | ⟨a, ha, rfl⟩
  · exact h b hb
  · exact hf a (h a ha)

theorem pairInv_upgradeCredential (password newSalt : String) (a : Account)
    (h : pairInv a) : pairInv (upgradeCredential password newSalt a) := h

theorem pairInv_applyUpdateFields (b : UpdateBody) (a : Account)
    (h : pairInv a) : pairInv (applyUpdateFields b a) := h

theorem StoreInv_signup (body : Option SignupBody) (store : List Account)
    (now : Nat) (salt : String) (h : StoreInv store) :
    StoreInv (signup body store now salt).2 := by
  cases body with
  | none => exact h
  | some b =>
    simp only [signup]
    split
    · exact h
    · split
      · exact h
      · intro a ha
        rcases List.mem_append.1 ha with ha | ha
        · exact h a ha
        · have := List.mem_singleton.1 ha
          subst this
          exact Or.inl ⟨rfl, rfl⟩

theorem StoreInv_login (body : Option LoginBody) (store : List Account)
    (newSalt : String) (h : StoreInv store) :
    StoreInv (login body store newSalt).2 := by
  cases body with
  | none => exact h
  | some b =>
    simp only [login]
    split
    · exact h
    · split
      · exact h
      · split
        · exact h
        · split
          · exact StoreInv_updateFirst (pairInv_upgradeCredential _ _) h
          · exact h

theorem StoreInv_update (body : Option UpdateBody) (store : List Account)
    (h : StoreInv store) : StoreInv (update body store).2 := by
  cases body with
  | none => exact h
  | some b =>
    simp only [update]
    split
    · exact h
    · split
      · exact h
      · exact StoreInv_updateFirst (pairInv_applyUpdateFields b) h

theorem StoreInv_requestReset (body : Option ResetRequestBody)
    (store : List Account) (now : Nat) (token : String) (h : StoreInv store) :
    StoreInv (requestReset body store now token).2 := by
  cases body with
  | none => exact h
  | some b =>
    simp only [requestReset]
    split
    · exact h
    · split
      · exact h
      · exact StoreInv_updateFirst
          (fun a _ => Or.inr ⟨by simp [installResetToken], by simp [installResetToken]⟩) h

theorem StoreInv_completeReset (body : Option ResetBody) (store : List Account)
    (now : Nat) (salt : String) (h : StoreInv store) :
    StoreInv (completeReset body store now salt).2 := by
  cases body with
  | none => exact h
  | some b =>
    simp only [completeReset]
    split
    · exact h
    · split
      · exact h
      · split
        · exact h
        · split
          · exact h
          · split
            · exact h
            · exact StoreInv_updateFirst
                (fun a _ => Or.inl ⟨rfl, rfl⟩) h

theorem StoreInv_applyOp (store : List Account) (op : Op) (h : StoreInv store) :
    StoreInv (applyOp store op) := by
  cases op with
  | signup body now salt => exact StoreInv_signup body store now salt h
  | login body newSalt => exact StoreInv_login body store newSalt h
  | update body => exact StoreInv_update body store h
  | requestReset body now token => exact StoreInv_requestReset body store now token h
  | completeReset body now salt => exact StoreInv_completeReset body store now salt h

/-- C7: on every store reachable from a store satisfying it by any sequence
of the operations signup, login, update, requestReset, completeReset, every
account record has `resetTokenHash` and `resetTokenExpiry` both null or both
non-null — every operation preserves the pairing invariant. -/
theorem C7_reset_pairing_invariant (ops : List Op) (store : List Account)
    (h : StoreInv store) : StoreInv (applyOps store ops) := by
  induction ops generalizing store with
  | nil => exact h
  | cons op rest ih => exact ih (applyOp store op) (StoreInv_applyOp store op h)

/-- Witness for C7: a full signup / request-reset / complete-reset / login /
update run starting from the empty store. -/
theorem C7_reset_pairing_invariant_witness :
    StoreInv (applyOps []
      [Op.signup (some (mkSignupBody none (some "b@x.com") (some "p") none)) 5 "s5",
       Op.requestReset (some (mkResetRequestBody (some "b@x.com"))) 6 "tok",
       Op.completeReset (some (mkResetBody (some "b@x.com") (some "tok") (some "np"))) 7 "s9",
       Op.login (some (mkLoginBody (some "b@x.com") (some "np"))) "sA",
       Op.update (some { id := some "acct_5", name := some "N", description := some "D" })]) :=
  C7_reset_pairing_invariant
    [Op.signup (some (mkSignupBody none (some "b@x.com") (some "p") none)) 5 "s5",
     Op.requestReset (some (mkResetRequestBody (some "b@x.com"))) 6 "tok",
     Op.completeReset (some (mkResetBody (some "b@x.com") (some "tok") (some "np"))) 7 "s9",
     Op.login (some (mkLoginBody (some "b@x.com") (some "np"))) "sA",
     Op.update (some { id := some "acct_5", name := some "N", description := some "D" })]
    [] (by intro a ha; exact absurd ha (List.not_mem_nil a))

/-- C8: the uniformity claim fails at signup. A malformed body to
POST /api/accounts is answered 400 with the BARE text body "invalid body"
(the catch at line 84 calls res.end on the raw string, without
JSON.stringify and without an error object), which is not a JSON object of
the form `{error: msg}` — while the login, update, request-reset and reset
handlers do answer a malformed body with the JSON object
`{error: "invalid body"}`. -/
theorem C8_signup_malformed_body_not_json :
    (signup none [] 0 "s").1 = ⟨400, Body.text "invalid body"⟩
    ∧ (∀ fields, Body.text "invalid body" ≠ Body.jsonObj fields)
    ∧ (login none [] "s").1 = ⟨400, Body.jsonObj [("error", JVal.str "invalid body")]⟩
    ∧ (update none []).1 = ⟨400, Body.jsonObj [("error", JVal.str "invalid body")]⟩
    ∧ (requestReset none [] 0 "t").1
        = ⟨400, Body.jsonObj [("error", JVal.str "invalid body")]⟩
    ∧ (completeReset none [] 0 "s").1
        = ⟨400, Body.jsonObj [("error", JVal.str "invalid body")]⟩ := by
  refine ⟨rfl, ?_, rfl, rfl, rfl, rfl⟩
  intro fields h
  exact Body.noConfusion h

/-- C9 counterexample: signup ids are `"acct_" ++ Date.now()`, so a signup in
the same millisecond as an existing account's creation succeeds (201, the
only uniqueness check is on the email) and duplicates its id. -/
theorem C9_counterexample_duplicate_id :
    (signup (some (mkSignupBody none (some "b@x.com") (some "q") none))
        [demoAccount] 1 "t1").1.status = 201
    ∧ ((signup (some (mkSignupBody none (some "b@x.com") (some "q") none))
        [demoAccount] 1 "t1").2.map (fun a => a.id)) = ["acct_1", "acct_1"] := by
  exact ⟨rfl, rfl⟩

/-- C9 amended: every account created by signup at clock reading `now` gets
id `"acct_" ++ now`; this id is distinct from the ids of all accounts
already in the store — and id uniqueness across the store is preserved —
provided no existing account already carries the id minted at `now`, i.e.
whenever successful signups happen at pairwise distinct `Date.now()`
readings. -/
theorem C9_amended_unique_ids_at_fresh_timestamp (body : Option SignupBody)
    (store : List Account) (now : Nat) (salt : String)
    (hnodup : (store.map (fun a => a.id)).Nodup)
    (hfresh : ∀ a ∈ store, a.id ≠ "acct_" ++ Nat.repr now) :
    ((signup body store now salt).2.map (fun a => a.id)).Nodup := by
  cases body with
  | none => exact hnodup
  | some b =>
    simp only [signup]
    split
    · exact hnodup
    · split
      · exact hnodup
      · rw [List.map_append, List.nodup_append]
        refine ⟨hnodup, List.nodup_singleton _, ?_⟩
        intro x hx hx'
        rcases List.mem_map.1 hx with ⟨a, ha, rfl⟩
        have : a.id = "acct_" ++ Nat.repr now := by
          simpa [newAccount] using hx'
        exact hfresh a ha this

/-- Witness for C9 amended: a signup at a timestamp distinct from the stored
account's keeps ids unique. -/
theorem C9_amended_unique_ids_at_fresh_timestamp_witness :
    ((signup (some (mkSignupBody none (some "b@x.com") (some "q") none))
        [demoAccount] 2 "t1").2.map (fun a => a.id)).Nodup :=
  C9_amended_unique_ids_at_fresh_timestamp
    (some (mkSignupBody none (some "b@x.com") (some "q") none))
    [demoAccount] 2 "t1" (by decide) (by decide)

/-- C10: requestReset on an account with a reset already pending overwrites
the stored `resetTokenHash` and `resetTokenExpiry` with the sha256 of the
newly issued token and a fresh one-hour expiry; the earlier token thereafter
fails validation with 400 `{error: "invalid token"}` (shown inside the new
validity window, where only the hash comparison can reject), leaving the
store unchanged — only the most recently issued token can complete a
reset. -/
theorem C10_new_token_invalidates_old (store : List Account)
    (email oldToken tok newPassword salt2 : String) (now now2 : Nat)
    (acct : Account)
    (he : email ≠ "") (hold : oldToken ≠ "") (hnp : newPassword ≠ "")
    (hne : oldToken ≠ tok)
    (hfind : store.find? (fun a => a.email == email) = some acct)
    (_hpending : acct.resetTokenHash = some (sha256Hex oldToken))
    (hwin : ¬ (now + 1000 * 60 * 60) < now2) :
    (requestReset (some (mkResetRequestBody (some email))) store now tok).1.status = 200
    ∧ (requestReset (some (mkResetRequestBody (some email))) store now tok).2.find?
        (fun a => a.email == email)
      = some (installResetToken (sha256Hex tok) (now + 1000 * 60 * 60) acct)
    ∧ completeReset (some (mkResetBody (some email) (some oldToken) (some newPassword)))
        (requestReset (some (mkResetRequestBody (some email))) store now tok).2 now2 salt2
      = (⟨400, Body.jsonObj [("error", JVal.str "invalid token")]⟩,
         (requestReset (some (mkResetRequestBody (some email))) store now tok).2) := by
  have hbe : (email == "") = false := by simp [he]
  have hbo : (oldToken == "") = false := by simp [hold]
  have hbn : (newPassword == "") = false := by simp [hnp]
  have hstep : requestReset (some (mkResetRequestBody (some email))) store now tok
      = (⟨200, Body.jsonObj [("message", JVal.str "reset token generated (demo)"),
            ("token", JVal.str tok)]⟩,
         updateFirst (fun a => a.email == email)
           (installResetToken (sha256Hex tok) (now + 1000 * 60 * 60)) store) := by
    simp [requestReset, truthyStr, mkResetRequestBody, hbe, hfind]
  have hpres : ∀ a : Account,
      ((installResetToken (sha256Hex tok) (now + 1000 * 60 * 60) a).email == email)
        = (a.email == email) :=
    fun a => rfl
  have hfind2 : (updateFirst (fun a => a.email == email)
      (installResetToken (sha256Hex tok) (now + 1000 * 60 * 60)) store).find?
        (fun a => a.email == email)
      = some (installResetToken (sha256Hex tok) (now + 1000 * 60 * 60) acct) := by
    rw [find?_updateFirst hpres, hfind]; rfl
  have hmismatch : (installResetToken (sha256Hex tok) (now + 1000 * 60 * 60)
      acct).resetTokenHash ≠ some (sha256Hex oldToken) := by
    simp [installResetToken, sha256Hex]
    exact fun h => hne h.symm
  refine ⟨by rw [hstep], by rw [hstep]; exact hfind2, ?_⟩
  rw [hstep]
  simp [completeReset, truthyStr, truthyNum, mkResetBody, hbe, hbo, hbn,
    hfind2, hmismatch, installResetToken, hwin]
  intro h
  exact hne (by simpa [sha256Hex] using h.symm)

/-- Witness for C10: the pending account gets a new token at clock 200; the
old token is rejected inside the new window. -/
theorem C10_new_token_invalidates_old_witness :
    (requestReset (some (mkResetRequestBody (some "r@x.com")))
        [demoPendingAccount] 200 "newtok").1.status = 200
    ∧ (requestReset (some (mkResetRequestBody (some "r@x.com")))
        [demoPendingAccount] 200 "newtok").2.find? (fun a => a.email == "r@x.com")
      = some (installResetToken (sha256Hex "newtok") (200 + 1000 * 60 * 60)
          demoPendingAccount)
    ∧ completeReset (some (mkResetBody (some "r@x.com") (some "tok") (some "np")))
        (requestReset (some (mkResetRequestBody (some "r@x.com")))
          [demoPendingAccount] 200 "newtok").2 300 "s6"
      = (⟨400, Body.jsonObj [("error", JVal.str "invalid token")]⟩,
         (requestReset (some (mkResetRequestBody (some "r@x.com")))
           [demoPendingAccount] 200 "newtok").2) :=
  C10_new_token_invalidates_old [demoPendingAccount] "r@x.com" "tok" "newtok"
    "np" "s6" 200 300 demoPendingAccount (by decide) (by decide) (by decide)
    (by decide) (by decide) (by decide) (by decide)

end Vynlo
